import Mathlib

/-!
Verification of the Geospatial QA Pipeline rule engine.

This file is a shallow embedding of the QA core of the repository:
`geo_qa/models.py` (status enum, result records, aggregation),
`geo_qa/rules.py` (the nine QA rule functions) and the per-layer
orchestrator `run_qa_for_layer` of `geo_qa/arcgis.py`.

Modelling conventions:
* Python/JSON values are `PyVal`; float arithmetic is modelled with `ℚ`.
* Python exceptions are modelled with `Except String`: every operation
  that can raise (attribute access on a non-dict, `len` of an unsized
  value, slicing a non-sequence, ordering against a non-number, ...)
  returns `Except String`, and every rule function is a total wrapper
  that converts an error of its translated body into the `RuleResult`
  built by the rule `except` clause, exactly as in the source.
* The external libraries used by the rules (shapely `shape`/validity,
  pandas dataframe statistics, `datetime`) and the HTTP client are not
  part of the repository; they are abstracted as oracle parameters
  (`ShapelyOps`, `PandasOps`, `DatetimeOps`, `ClientOps`), so theorems
  about the rules quantify over every possible behaviour of these
  collaborators.  `datetime.now()` is the `nowSec` field of the
  `DatetimeOps` oracle, which makes the time dependence of
  `check_update_recency` an explicit input.
* Error-message texts are model-level descriptions (the Python
  interpreter wording is not reproduced); no claim depends on them.
-/

namespace GeoQA

/-- Python/JSON values as the rules receive them (floats as rationals). -/
inductive PyVal where
  | none
  | bool (b : Bool)
  | int (n : Int)
  | float (q : ℚ)
  | str (s : String)
  | list (xs : List PyVal)
  | dict (kvs : List (String × PyVal))

/-- Python truthiness of a value. -/
def PyVal.truthy : PyVal → Bool
  | .none => false
  | .bool b => b
  | .int n => decide (n ≠ 0)
  | .float q => decide (q ≠ 0)
  | .str s => decide (s ≠ "")
  | .list xs => !xs.isEmpty
  | .dict kvs => !kvs.isEmpty

/-- Whether a value is a Python dict (`isinstance(v, dict)`). -/
def PyVal.isDict : PyVal → Bool
  | .dict _ => true
  | _ => false

/-- A metadata mapping: the payload of a successful `fetch_metadata`. -/
def Md := List (String × PyVal)

/-- Python `d.get(key, default)` on a mapping known to be a dict. -/
def dictGet (kvs : List (String × PyVal)) (key : String) (dflt : PyVal) : PyVal :=
  match kvs.find? (fun kv => kv.1 == key) with
  | some kv => kv.2
  | Option.none => dflt

/-- Python `d.get(key, default)` on a metadata mapping (an `Md`). -/
def mdGet (m : Md) (key : String) (dflt : PyVal) : PyVal :=
  dictGet m key dflt

/-- Python `v.get(key, default)` on any value: raises unless a dict. -/
def pyGet (v : PyVal) (key : String) (dflt : PyVal) : Except String PyVal :=
  match v with
  | .dict kvs => .ok (dictGet kvs key dflt)
  | _ => .error "AttributeError: object has no attribute get"

/-- Python `len(v)`: defined for strings, lists and dicts, raises otherwise. -/
def pyLen : PyVal → Except String Nat
  | .str s => .ok s.length
  | .list xs => .ok xs.length
  | .dict kvs => .ok kvs.length
  | _ => .error "TypeError: object has no len"

/-- Whether a character list starts with the pattern. -/
def charsStart : List Char → List Char → Bool
  | _, [] => true
  | [], _ :: _ => false
  | c :: cs, p :: ps => c == p && charsStart cs ps

/-- Whether the pattern occurs somewhere in the character list. -/
def charsHave (pat : List Char) : List Char → Bool
  | [] => charsStart [] pat
  | c :: cs => charsStart (c :: cs) pat || charsHave pat cs

/-- Replace-all on character lists, fuelled by the list length so that
the recursion is structural. -/
def charsReplaceGo (pat rep : List Char) : Nat → List Char → List Char
  | _, [] => []
  | 0, l => l
  | fuel + 1, c :: cs =>
    if charsStart (c :: cs) pat then
      match pat with
      | [] => c :: charsReplaceGo pat rep fuel cs
      | _ :: ps => rep ++ charsReplaceGo pat rep fuel (cs.drop ps.length)
    else c :: charsReplaceGo pat rep fuel cs

/-- Python `s.replace(pat, rep)` (replace every occurrence). -/
def charsReplace (pat rep l : List Char) : List Char :=
  charsReplaceGo pat rep l.length l

/-- Python `s.lower()` (ASCII model). -/
def strLower (s : String) : String := ⟨s.data.map Char.toLower⟩

/-- Python `s.upper()` (ASCII model). -/
def strUpper (s : String) : String := ⟨s.data.map Char.toUpper⟩

/-- Python `v[:200]`: defined for strings and lists, raises otherwise. -/
def pySlice200 : PyVal → Except String PyVal
  | .str s => .ok (.str ⟨s.data.take 200⟩)
  | .list xs => .ok (.list (xs.take 200))
  | v => .error ((fun _ => "TypeError: object is not subscriptable") v)

/-- Python `==` between a value and an int literal (numeric coercions). -/
def pyEqInt (v : PyVal) (k : Int) : Bool :=
  match v with
  | .int n => decide (n = k)
  | .float q => decide (q = (k : ℚ))
  | .bool b => decide ((if b then (1 : Int) else 0) = k)
  | _ => false

/-- Python `c <= v` for an int `c`: raises when `v` is not a number. -/
def pyLeInt (c : Int) (v : PyVal) : Except String Bool :=
  match v with
  | .int n => .ok (decide (c ≤ n))
  | .float q => .ok (decide ((c : ℚ) ≤ q))
  | .bool b => .ok (decide (c ≤ if b then (1 : Int) else 0))
  | _ => .error "TypeError: comparison not supported between int and object"

/-- Python `v / 1000` for an epoch-millisecond value: raises on non-numbers. -/
def pyDiv1000 : PyVal → Except String ℚ
  | .int n => .ok ((n : ℚ) / 1000)
  | .float q => .ok (q / 1000)
  | .bool b => .ok ((if b then (1 : ℚ) else 0) / 1000)
  | _ => .error "TypeError: unsupported operand types for division"

/-- Python `v.replace("esriGeometry", "")`: raises unless a string. -/
def pyReplaceEsri : PyVal → Except String String
  | .str s => .ok ⟨charsReplace "esriGeometry".data [] s.data⟩
  | _ => .error "AttributeError: object has no attribute replace"

/-- Python `str(v)`, model-level rendering (used only inside messages). -/
def pyToString : PyVal → String
  | .none => "None"
  | .bool true => "True"
  | .bool false => "False"
  | .int n => toString n
  | .float q => toString q
  | .str s => s
  | .list _ => "[list]"
  | .dict _ => "[dict]"

/-- Python substring test `pat in s`. -/
def strContainsSub (s pat : String) : Bool :=
  charsHave pat.data s.data

/-- Python `round(q, 2)` (model: round half away from zero scaled by 100). -/
def round2 (q : ℚ) : ℚ := ((round (q * 100) : ℤ) : ℚ) / 100

/-- Python `round(q, 1)` (model: round half away from zero scaled by 10). -/
def round1 (q : ℚ) : ℚ := ((round (q * 10) : ℤ) : ℚ) / 10

/-- Render a rational with one decimal digit, for messages using `:.1f`. -/
def fmt1 (q : ℚ) : String :=
  let n : Int := round (q * 10)
  toString (n / 10) ++ "." ++ toString (n % 10)

/-- Render a rational with no decimal digits, for messages using `:.0f`. -/
def fmt0 (q : ℚ) : String := toString (round q : Int)

/-- Status values for QA checks (`QAStatus` in `models.py`). -/
inductive QAStatus where
  | PASS
  | WARN
  | FAIL
  | NA
deriving DecidableEq

/-- The string payload of a status (`QAStatus.value`). -/
def QAStatus.value : QAStatus → String
  | .PASS => "PASS"
  | .WARN => "WARN"
  | .FAIL => "FAIL"
  | .NA => "NA"

/-- Result from a single QA rule check (`RuleResult` in `models.py`). -/
structure RuleResult where
  rule_name : String
  status : QAStatus
  message : String
  evidence : List (String × PyVal) := []

/-- Configuration for a single layer (`LayerConfig` in `models.py`). -/
structure LayerConfig where
  layer_name : String
  service_url : String
  expected_geometry : String := "Unknown"
  owner : Option String := Option.none
  notes : Option String := Option.none

/-- Behaviour of shapely geometry objects visible to the rule code. -/
structure ShapelyGeom where
  is_valid : Bool
  geom_type : String

/-- Oracle for the shapely library: `shape(...)` may raise or return. -/
structure ShapelyOps where
  shape : List (String × PyVal) → Except String ShapelyGeom

/-- The pandas dataframe statistics that `check_schema_sanity` reads. -/
structure SchemaFrame where
  empty : Bool
  cols : List String
  dupCols : List String
  highNull : List String
  nrows : Nat

/-- Oracle for pandas: building a dataframe from attribute maps. -/
structure PandasOps where
  toFrame : List PyVal → Except String SchemaFrame

/-- Oracle for the datetime library, with the current time explicit. -/
structure DatetimeOps where
  fromtimestampIso : ℚ → Except String String
  nowSec : ℚ

/-- Translated body of `check_reachability` (`rules.py`). -/
def reachability_body (metadata : Option Md) : Except String RuleResult :=
  match metadata with
  | some _ => .ok
      { rule_name := "reachability", status := .PASS,
        message := "Service is reachable and returns metadata",
        evidence := [("metadata_exists", .bool true)] }
  | Option.none => .ok
      { rule_name := "reachability", status := .FAIL,
        message := "Cannot fetch metadata from service",
        evidence := [("metadata_exists", .bool false)] }

/-- Rule `check_reachability` (`rules.py`): the except clause converts faults. -/
def check_reachability (metadata : Option Md) : RuleResult :=
  match reachability_body metadata with
  | .ok r => r
  | .error e =>
      { rule_name := "reachability", status := .FAIL,
        message := "Exception during reachability check: " ++ e,
        evidence := [("error", .str e)] }

/-- Translated body of `check_queryability` (`rules.py`). -/
def queryability_body (count : Option Int) (metadata : Option Md) :
    Except String RuleResult :=
  match count with
  | some c => .ok
      { rule_name := "queryability", status := .PASS,
        message := "Layer is queryable (" ++ toString c ++ " features)",
        evidence := [("count", .int c), ("queryable", .bool true)] }
  | Option.none =>
    match metadata with
    | some _ => .ok
        { rule_name := "queryability", status := .WARN,
          message := "Metadata exists but query endpoint failed",
          evidence := [("count", PyVal.none), ("queryable", .bool false)] }
    | Option.none => .ok
        { rule_name := "queryability", status := .FAIL,
          message := "Layer is not queryable",
          evidence := [("count", PyVal.none), ("queryable", .bool false)] }

/-- Rule `check_queryability` (`rules.py`). -/
def check_queryability (count : Option Int) (metadata : Option Md) : RuleResult :=
  match queryability_body count metadata with
  | .ok r => r
  | .error e =>
      { rule_name := "queryability", status := .FAIL,
        message := "Exception: " ++ e, evidence := [("error", .str e)] }

/-- The "determine status" block of `check_metadata_completeness`
(`rules.py`, lines 175-191): thresholds PASS at 70 and WARN at 40, the
score and component breakdown always recorded as evidence. -/
def mc_result (score : Int) (components : List (String × PyVal)) :
    Except String RuleResult :=
  let evidence : List (String × PyVal) :=
    [("score", .int score), ("components", .dict components)]
  if score ≥ 70 then .ok
    { rule_name := "metadata_completeness", status := .PASS,
      message := "Metadata is complete (score: " ++ toString score ++ "/100)",
      evidence := evidence }
  else if score ≥ 40 then .ok
    { rule_name := "metadata_completeness", status := .WARN,
      message := "Metadata is partially complete (score: " ++ toString score ++ "/100)",
      evidence := evidence }
  else .ok
    { rule_name := "metadata_completeness", status := .FAIL,
      message := "Metadata is incomplete (score: " ++ toString score ++ "/100)",
      evidence := evidence }

/-- Translated body of `check_metadata_completeness` (`rules.py`): the
additive 0-100 score over seven components, with `len(fields)` and the
`advancedQueryCapabilities` lookups able to raise on malformed values. -/
def metadata_completeness_body (metadata : Option Md) : Except String RuleResult :=
  match metadata with
  | Option.none => .ok
      { rule_name := "metadata_completeness", status := .FAIL,
        message := "No metadata available",
        evidence := [("score", .int 0), ("components", .dict [])] }
  | some m =>
    let descr := (mdGet m "description" PyVal.none).truthy
    let geomt := (mdGet m "geometryType" PyVal.none).truthy
    let ext := (mdGet m "extent" PyVal.none).truthy
    match pyLen (mdGet m "fields" (.list [])) with
    | .error e => .error e
    | .ok flen =>
      let cap := (mdGet m "capabilities" PyVal.none).truthy
      let mrc := (mdGet m "maxRecordCount" PyVal.none).truthy
      let adv := mdGet m "advancedQueryCapabilities" (.dict [])
      match pyGet adv "supportsPagination" PyVal.none with
      | .error e => .error e
      | .ok p1 =>
        match pyGet adv "supportsQueryWithPagination" PyVal.none with
        | .error e => .error e
        | .ok p2 =>
          let pag := p1.truthy || p2.truthy
          let score : Int :=
            (if descr then 10 else 0) + (if geomt then 20 else 0) +
            (if ext then 20 else 0) + (if flen ≥ 3 then 20 else 0) +
            (if cap then 10 else 0) + (if mrc then 10 else 0) +
            (if pag then 10 else 0)
          let components : List (String × PyVal) :=
            [("description", .bool descr), ("geometryType", .bool geomt),
             ("extent", .bool ext), ("fields", .int flen),
             ("capabilities", .bool cap), ("maxRecordCount", .bool mrc),
             ("pagination", .bool pag)]
          mc_result score components

/-- Rule `check_metadata_completeness` (`rules.py`). -/
def check_metadata_completeness (metadata : Option Md) : RuleResult :=
  match metadata_completeness_body metadata with
  | .ok r => r
  | .error e =>
      { rule_name := "metadata_completeness", status := .FAIL,
        message := "Exception: " ++ e,
        evidence := [("error", .str e), ("score", .int 0)] }

/-- Translated body of `check_record_availability` (`rules.py`). -/
def record_availability_body (count : Option Int) : Except String RuleResult :=
  match count with
  | Option.none => .ok
      { rule_name := "record_availability", status := .WARN,
        message := "Cannot determine record count",
        evidence := [("count", PyVal.none)] }
  | some c =>
    if c = 0 then .ok
      { rule_name := "record_availability", status := .WARN,
        message := "Layer contains no features",
        evidence := [("count", .int 0)] }
    else .ok
      { rule_name := "record_availability", status := .PASS,
        message := "Layer contains " ++ toString c ++ " features",
        evidence := [("count", .int c)] }

/-- Rule `check_record_availability` (`rules.py`): its except clause is WARN. -/
def check_record_availability (count : Option Int) : RuleResult :=
  match record_availability_body count with
  | .ok r => r
  | .error e =>
      { rule_name := "record_availability", status := .WARN,
        message := "Exception: " ++ e, evidence := [("error", .str e)] }

/-- The body of the inner try of `check_pagination_support` (`rules.py`,
lines 285-313): the one paged fetch the rule issues is the `pageFetch`
collaborator outcome; reading `features` off the response and measuring
the second page can raise as well. -/
def pagination_inner_body (pageFetch : Except String PyVal) :
    Except String RuleResult :=
  match pageFetch with
  | .error e => .error e
  | .ok response =>
    match pyGet response "features" (.list []) with
    | .error e => .error e
    | .ok second_page =>
      if second_page.truthy then
        match pyLen second_page with
        | .error e => .error e
        | .ok n => .ok
            { rule_name := "pagination_support", status := .PASS,
              message := "Pagination works correctly",
              evidence := [("pagination_tested", .bool true),
                ("second_page_features", .int n)] }
      else .ok
        { rule_name := "pagination_support", status := .WARN,
          message := "Pagination may not work (no features on second page)",
          evidence := [("pagination_tested", .bool true),
            ("second_page_features", .int 0)] }

/-- The inner try/except of `check_pagination_support`: any fault in the
paged probe becomes the FAIL "Pagination failed" result. -/
def pagination_page_result (pageFetch : Except String PyVal) : RuleResult :=
  match pagination_inner_body pageFetch with
  | .ok r => r
  | .error e =>
      { rule_name := "pagination_support", status := .FAIL,
        message := "Pagination failed: " ++ e,
        evidence := [("pagination_tested", .bool true), ("error", .str e)] }

/-- Translated body of `check_pagination_support` (`rules.py`). -/
def pagination_body (metadata : Option Md) (count : Option Int)
    (pageFetch : Except String PyVal) : Except String RuleResult :=
  match metadata, count with
  | Option.none, _ => .ok
      { rule_name := "pagination_support", status := .NA,
        message := "Cannot test pagination without metadata/count",
        evidence := [("pagination_tested", .bool false)] }
  | some _, Option.none => .ok
      { rule_name := "pagination_support", status := .NA,
        message := "Cannot test pagination without metadata/count",
        evidence := [("pagination_tested", .bool false)] }
  | some m, some c =>
    let max_record_count := mdGet m "maxRecordCount" (.int 1000)
    match pyLeInt c max_record_count with
    | .error e => .error e
    | .ok true => .ok
        { rule_name := "pagination_support", status := .NA,
          message := "Pagination not needed (count: " ++ toString c ++ ", max: " ++
            pyToString max_record_count ++ ")",
          evidence := [("pagination_tested", .bool false), ("count", .int c),
            ("max", max_record_count)] }
    | .ok false => .ok (pagination_page_result pageFetch)

/-- Rule `check_pagination_support` (`rules.py`). -/
def check_pagination_support (metadata : Option Md) (count : Option Int)
    (pageFetch : Except String PyVal) : RuleResult :=
  match pagination_body metadata count pageFetch with
  | .ok r => r
  | .error e =>
      { rule_name := "pagination_support", status := .FAIL,
        message := "Exception: " ++ e, evidence := [("error", .str e)] }

/-- The NA result shared by the two no-features branches of
`check_schema_sanity`. -/
def schema_na_result : RuleResult :=
  { rule_name := "schema_sanity", status := .NA,
    message := "No features available for schema check", evidence := [] }

/-- Translated body of `check_schema_sanity` (`rules.py`): attribute maps
are pulled off each feature (raising on non-dict features), the pandas
dataframe statistics are the `PandasOps` oracle, and the verdict is WARN
exactly when there are duplicate columns or at least five fields whose
null rate exceeds 80 percent. -/
def schema_body (pandas : PandasOps) (features : Option (List PyVal)) :
    Except String RuleResult :=
  match features with
  | Option.none => .ok schema_na_result
  | some [] => .ok schema_na_result
  | some fs =>
    match fs.mapM (fun f => pyGet f "attributes" (.dict [])) with
    | .error e => .error e
    | .ok attributes_list =>
      if attributes_list.isEmpty then .ok
        { rule_name := "schema_sanity", status := .WARN,
          message := "Features have no attributes", evidence := [] }
      else
        match pandas.toFrame attributes_list with
        | .error e => .error e
        | .ok df =>
          if df.empty then .ok
            { rule_name := "schema_sanity", status := .WARN,
              message := "Empty attribute table", evidence := [] }
          else
            let duplicate_cols := df.dupCols
            let objectid_fields := df.cols.filter (fun col =>
              strContainsSub (strUpper col) "OBJECTID" ||
              strContainsSub (strUpper col) "FID" ||
              strContainsSub (strUpper col) "OID")
            let high_null_fields := df.highNull
            let issues : List String :=
              (if !duplicate_cols.isEmpty then
                ["Duplicate fields: " ++ String.intercalate ", " duplicate_cols]
              else []) ++
              (if objectid_fields.isEmpty then ["No OBJECTID-like field found"]
              else []) ++
              (if high_null_fields.length ≥ 5 then
                [toString high_null_fields.length ++ " fields have >80% nulls"]
              else [])
            let evidence : List (String × PyVal) :=
              (if !duplicate_cols.isEmpty then
                [("duplicate_fields", .list (duplicate_cols.map PyVal.str))]
              else []) ++
              (if objectid_fields.isEmpty then [("has_objectid", .bool false)]
              else [("has_objectid", .bool true),
                ("objectid_fields", .list (objectid_fields.map PyVal.str))]) ++
              (if high_null_fields.length ≥ 5 then
                [("high_null_fields", .list (high_null_fields.map PyVal.str)),
                 ("high_null_count", .int high_null_fields.length)]
              else []) ++
              [("total_fields", .int df.cols.length),
               ("sample_size", .int df.nrows)]
            if !duplicate_cols.isEmpty || high_null_fields.length ≥ 5 then .ok
              { rule_name := "schema_sanity", status := .WARN,
                message := if issues.isEmpty then "Schema has warnings"
                  else String.intercalate "; " issues,
                evidence := evidence }
            else .ok
              { rule_name := "schema_sanity", status := .PASS,
                message := "Schema appears healthy", evidence := evidence }

/-- Rule `check_schema_sanity` (`rules.py`). -/
def check_schema_sanity (pandas : PandasOps) (features : Option (List PyVal)) :
    RuleResult :=
  match schema_body pandas features with
  | .ok r => r
  | .error e =>
      { rule_name := "schema_sanity", status := .FAIL,
        message := "Exception: " ++ e, evidence := [("error", .str e)] }

/-- The per-feature counting loop of `check_geometry_sanity` (`rules.py`),
accumulating (empty, invalid, type-mismatch) counts.  The feature
`geometry` value is fetched with `.get` (raising on non-dict features);
a falsy geometry counts as empty; a dict geometry whose values are all
falsy counts as empty; otherwise the shapely oracle parses it (a parse
error counts as invalid, as does invalid topology), and the geometry
category is compared against the expected family with Multi-variants
normalised.  A truthy geometry value that is not a dict falls through
the `isinstance` guard and is not counted at all. -/
def geometry_loop (sh : ShapelyOps) (config : LayerConfig) :
    List PyVal → Nat × Nat × Nat → Except String (Nat × Nat × Nat)
  | [], acc => .ok acc
  | f :: rest, (ec, ic, mc) =>
    match pyGet f "geometry" PyVal.none with
    | .error e => .error e
    | .ok geom_data =>
      if !geom_data.truthy then geometry_loop sh config rest (ec + 1, ic, mc)
      else
        match geom_data with
        | .dict kvs =>
          if !(kvs.any (fun kv => kv.2.truthy)) then
            geometry_loop sh config rest (ec + 1, ic, mc)
          else
            match sh.shape kvs with
            | .error _ => geometry_loop sh config rest (ec, ic + 1, mc)
            | .ok geom =>
              let ic2 := if geom.is_valid then ic else ic + 1
              let expected := strLower config.expected_geometry
              let geom_type := strLower geom.geom_type
              let mismatch : Bool :=
                if expected = "point" || expected = "multipoint" then
                  !(geom_type = "point" || geom_type = "multipoint")
                else if expected = "line" || expected = "linestring" ||
                    expected = "multilinestring" then
                  !(geom_type = "linestring" || geom_type = "multilinestring")
                else if expected = "polygon" || expected = "multipolygon" then
                  !(geom_type = "polygon" || geom_type = "multipolygon")
                else false
              geometry_loop sh config rest (ec, ic2, if mismatch then mc + 1 else mc)
        | _ => geometry_loop sh config rest (ec, ic, mc)

/-- The NA result of `check_geometry_sanity` when no features are given. -/
def geometry_na_result : RuleResult :=
  { rule_name := "geometry_sanity", status := .NA,
    message := "No features available for geometry check", evidence := [] }

/-- The percentage computation, evidence and verdict block of
`check_geometry_sanity` (`rules.py`, lines 513-547), applied to the
sample size and the three issue counts. -/
def geom_result (total empty_count invalid_count type_mismatch_count : Nat) :
    Except String RuleResult :=
  let pct_empty : ℚ :=
    if total > 0 then ((empty_count : ℚ) / (total : ℚ)) * 100 else 0
  let pct_invalid : ℚ :=
    if total > 0 then ((invalid_count : ℚ) / (total : ℚ)) * 100 else 0
  let pct_mismatch : ℚ :=
    if total > 0 then ((type_mismatch_count : ℚ) / (total : ℚ)) * 100 else 0
  let evidence : List (String × PyVal) :=
    [("total_features", .int total), ("empty_count", .int empty_count),
     ("invalid_count", .int invalid_count),
     ("type_mismatch_count", .int type_mismatch_count),
     ("pct_empty", .float (round2 pct_empty)),
     ("pct_invalid", .float (round2 pct_invalid)),
     ("pct_mismatch", .float (round2 pct_mismatch))]
  if pct_empty > 25 ∨ pct_invalid > 25 then .ok
    { rule_name := "geometry_sanity", status := .FAIL,
      message := "Geometry issues: " ++ fmt1 pct_empty ++ "% empty, " ++
        fmt1 pct_invalid ++ "% invalid",
      evidence := evidence }
  else if pct_empty > 5 ∨ pct_invalid > 5 then .ok
    { rule_name := "geometry_sanity", status := .WARN,
      message := "Some geometry issues: " ++ fmt1 pct_empty ++ "% empty, " ++
        fmt1 pct_invalid ++ "% invalid",
      evidence := evidence }
  else if pct_mismatch > 10 then .ok
    { rule_name := "geometry_sanity", status := .WARN,
      message := "Geometry type mismatch: " ++ fmt1 pct_mismatch ++ "%",
      evidence := evidence }
  else .ok
    { rule_name := "geometry_sanity", status := .PASS,
      message := "Geometry appears healthy", evidence := evidence }

/-- Translated body of `check_geometry_sanity` (`rules.py`). -/
def geometry_body (sh : ShapelyOps) (features : Option (List PyVal))
    (config : LayerConfig) : Except String RuleResult :=
  match features with
  | Option.none => .ok geometry_na_result
  | some [] => .ok geometry_na_result
  | some fs =>
    let total := fs.length
    match geometry_loop sh config fs (0, 0, 0) with
    | .error e => .error e
    | .ok (empty_count, invalid_count, type_mismatch_count) =>
      geom_result total empty_count invalid_count type_mismatch_count

/-- Rule `check_geometry_sanity` (`rules.py`). -/
def check_geometry_sanity (sh : ShapelyOps) (features : Option (List PyVal))
    (config : LayerConfig) : RuleResult :=
  match geometry_body sh features config with
  | .ok r => r
  | .error e =>
      { rule_name := "geometry_sanity", status := .FAIL,
        message := "Exception: " ++ e, evidence := [("error", .str e)] }

/-- Translated body of `check_update_recency` (`rules.py`): discover a
last-edit timestamp (epoch milliseconds) in the metadata, convert it via
the datetime oracle, and compare the age in months against the threshold.
The `days` of a Python timedelta are a floor division of its seconds. -/
def update_recency_body (dt : DatetimeOps) (threshold_months : Int)
    (metadata : Option Md) : Except String RuleResult :=
  match metadata with
  | Option.none => .ok
      { rule_name := "update_recency", status := .NA,
        message := "No metadata available", evidence := [] }
  | some m =>
    let edit_info := mdGet m "editFieldsInfo" (.dict [])
    match pyGet edit_info "editDateField" PyVal.none with
    | .error e => .error e
    | .ok edit_date_field =>
      let editing := mdGet m "editingInfo" PyVal.none
      match (if editing.truthy then pyGet editing "lastEditDate" PyVal.none
        else .ok PyVal.none) with
      | .error e => .error e
      | .ok last_edit_ms =>
        if !last_edit_ms.truthy && !edit_date_field.truthy then .ok
          { rule_name := "update_recency", status := .NA,
            message := "No last edit date available in metadata", evidence := [] }
        else if !last_edit_ms.truthy then .ok
          { rule_name := "update_recency", status := .NA,
            message := "Last edit date field " ++ pyToString edit_date_field ++
              " found but no timestamp in metadata",
            evidence := [("edit_field", edit_date_field)] }
        else
          match pyDiv1000 last_edit_ms with
          | .error e => .error e
          | .ok sec =>
            match dt.fromtimestampIso sec with
            | .error e => .error e
            | .ok iso =>
              let days : Int := Int.floor ((dt.nowSec - sec) / 86400)
              let age_months : ℚ := (days : ℚ) / (761 / 25 : ℚ)
              let evidence : List (String × PyVal) :=
                [("last_edit_date", .str iso),
                 ("months_old", .float (round1 age_months)),
                 ("threshold_months", .int threshold_months)]
              if age_months > (threshold_months : ℚ) then .ok
                { rule_name := "update_recency", status := .WARN,
                  message := "Layer not updated in " ++ fmt0 age_months ++
                    " months (threshold: " ++ toString threshold_months ++ ")",
                  evidence := evidence }
              else .ok
                { rule_name := "update_recency", status := .PASS,
                  message := "Layer recently updated (" ++ fmt0 age_months ++
                    " months ago)",
                  evidence := evidence }

/-- Rule `check_update_recency` (`rules.py`), default threshold 24 months. -/
def check_update_recency (dt : DatetimeOps) (metadata : Option Md)
    (threshold_months : Int := 24) : RuleResult :=
  match update_recency_body dt threshold_months metadata with
  | .ok r => r
  | .error e =>
      { rule_name := "update_recency", status := .FAIL,
        message := "Exception: " ++ e, evidence := [("error", .str e)] }

/-- The fixed allow-list of common spatial reference systems. -/
def common_wkids : List Int := [4326, 3857, 2263, 2264, 26918, 26919]

/-- The spatial-reference extraction of `check_spatial_reference`
(`rules.py`): pull `extent.spatialReference` out of the metadata, read
`wkid` (falling back to `latestWkid` on falsy), `wkt`, and build the
truncated wkt evidence; each step raises on a malformed (non-dict or
non-sliceable) value.  Returns (wkid, wkt, truncated-wkt evidence). -/
def srExtract (m : Md) : Except String (PyVal × PyVal × PyVal) :=
  match pyGet (mdGet m "extent" (.dict [])) "spatialReference" (.dict []) with
  | .error e => .error e
  | .ok spatial_ref =>
    match pyGet spatial_ref "wkid" PyVal.none with
    | .error e => .error e
    | .ok w1 =>
      match pyGet spatial_ref "latestWkid" PyVal.none with
      | .error e => .error e
      | .ok w2 =>
        match pyGet spatial_ref "wkt" PyVal.none with
        | .error e => .error e
        | .ok wkt_str =>
          let wkid := if w1.truthy then w1 else w2
          match (if wkt_str.truthy then pySlice200 wkt_str
            else .ok PyVal.none) with
          | .error e => .error e
          | .ok wkt_ev => .ok (wkid, wkt_str, wkt_ev)

/-- The verdict block of `check_spatial_reference` (`rules.py`, lines
671-703), applied to the extracted wkid, wkt and truncated wkt. -/
def sr_result (wkid wkt_str wkt_ev : PyVal) : Except String RuleResult :=
  let evidence : List (String × PyVal) := [("wkid", wkid), ("wkt", wkt_ev)]
  if !wkid.truthy && !wkt_str.truthy then .ok
    { rule_name := "spatial_reference", status := .WARN,
      message := "No spatial reference information found",
      evidence := evidence }
  else if wkid.truthy && !(common_wkids.any (fun k => pyEqInt wkid k)) then .ok
    { rule_name := "spatial_reference", status := .WARN,
      message := "Unusual spatial reference (WKID: " ++ pyToString wkid ++ ")",
      evidence := evidence }
  else .ok
    { rule_name := "spatial_reference", status := .PASS,
      message := "Spatial reference present (WKID: " ++ pyToString wkid ++ ")",
      evidence := evidence }

/-- Translated body of `check_spatial_reference` (`rules.py`). -/
def spatial_reference_body (metadata : Option Md) : Except String RuleResult :=
  match metadata with
  | Option.none => .ok
      { rule_name := "spatial_reference", status := .NA,
        message := "No metadata available", evidence := [] }
  | some m =>
    match srExtract m with
    | .error e => .error e
    | .ok (wkid, wkt_str, wkt_ev) => sr_result wkid wkt_str wkt_ev

/-- Rule `check_spatial_reference` (`rules.py`). -/
def check_spatial_reference (metadata : Option Md) : RuleResult :=
  match spatial_reference_body metadata with
  | .ok r => r
  | .error e =>
      { rule_name := "spatial_reference", status := .FAIL,
        message := "Exception: " ++ e, evidence := [("error", .str e)] }

/-- Complete QA results for a single layer (`LayerQAResult` in
`models.py`).  The mirror fields filled from rule evidence keep the
Python value they are assigned (pydantic does not re-validate plain
attribute assignment), so they are `PyVal` here. -/
structure LayerQAResult where
  layer_name : String
  service_url : String
  overall_status : QAStatus := .FAIL
  reachable : Bool := false
  count_estimate : Option Int := Option.none
  geometry_type_reported : Option String := Option.none
  expected_geometry : String := "Unknown"
  max_record_count : PyVal := PyVal.none
  metadata_score : PyVal := PyVal.int 0
  pagination_ok : String := "NA"
  null_fields_over_80pct : PyVal := PyVal.int 0
  pct_invalid_geometry : PyVal := PyVal.float 0
  pct_empty_geometry : PyVal := PyVal.float 0
  last_edit_date : PyVal := PyVal.none
  format_supported : String := "unknown"
  spatial_reference_wkid : PyVal := PyVal.none
  rule_results : List RuleResult := []
  errors : List String := []
  top_issues : String := ""
  raw_metadata : Option Md := Option.none

/-- Method `LayerQAResult.compute_top_issues` (`models.py`): collect
"name: message" for the FAIL/WARN rules in order, keep the first 3,
join with "; ". -/
def LayerQAResult.compute_top_issues (r : LayerQAResult) : String :=
  let issues := r.rule_results.foldl
    (fun acc res =>
      if res.status = QAStatus.FAIL ∨ res.status = QAStatus.WARN then
        acc ++ [res.rule_name ++ ": " ++ res.message]
      else acc) []
  String.intercalate "; " (issues.take 3)

/-- Method `LayerQAResult.aggregate_status` (`models.py`). -/
def LayerQAResult.aggregate_status (r : LayerQAResult) : QAStatus :=
  if !r.reachable then QAStatus.FAIL
  else
    let statuses := r.rule_results.map RuleResult.status
    if QAStatus.FAIL ∈ statuses then QAStatus.FAIL
    else if QAStatus.WARN ∈ statuses then QAStatus.WARN
    else QAStatus.PASS

/-- Outcomes of the external `ArcGISClient` collaborator calls that
`run_qa_for_layer` makes for one layer, in the source order: the
metadata fetch, the feature count, the feature sample, the format
probe, and the single paged request issued by `check_pagination_support`
through `client._make_request`. -/
structure ClientOps where
  fetchMetadata : Option Md
  countFeatures : Option Int
  sampleFeatures : Option (List PyVal)
  formatSupport : String
  pageFetch : Except String PyVal

/-- Line 324 of `arcgis.py`, the expression
`metadata.get("geometryType", "").replace("esriGeometry", "")`:
it
line 324 of `arcgis.py`: raises when the stored value is not a string. -/
def extract_geometry_type (m : Md) : Except String String :=
  pyReplaceEsri (mdGet m "geometryType" (PyVal.str ""))

/-- Lines 327-329 of `arcgis.py`: extract the spatial reference wkid
(falling back to `latestWkid`), raising on malformed extent values. -/
def extract_wkid (m : Md) : Except String PyVal :=
  match pyGet (mdGet m "extent" (.dict [])) "spatialReference" (.dict []) with
  | .error e => .error e
  | .ok spatial_ref =>
    match pyGet spatial_ref "wkid" PyVal.none with
    | .error e => .error e
    | .ok w1 =>
      match pyGet spatial_ref "latestWkid" PyVal.none with
      | .error e => .error e
      | .ok w2 => .ok (if w1.truthy then w1 else w2)

/-- Evidence lookup `evidence.get(key, default)`. -/
def evGet (ev : List (String × PyVal)) (key : String) (dflt : PyVal) : PyVal :=
  dictGet ev key dflt

/-- Orchestrator `run_qa_for_layer` (`arcgis.py`).  Absent metadata short-circuits to
an unreachable FAIL result whose rule list holds only the reachability
rule.  Otherwise key metadata fields are copied out (each copy can raise
on malformed values; a raise is caught at the orchestrator boundary,
recorded in `errors`, and forces overall FAIL, with the fields assigned
so far kept - mirroring the source incremental mutation), the
collaborator outcomes are read, the nine rules run in the fixed order,
evidence is mirrored onto the result, and status and top issues are
computed. -/
def run_qa_for_layer (config : LayerConfig) (client : ClientOps)
    (pandas : PandasOps) (sh : ShapelyOps) (dt : DatetimeOps) : LayerQAResult :=
  let result : LayerQAResult :=
    { layer_name := config.layer_name, service_url := config.service_url,
      expected_geometry := config.expected_geometry }
  match client.fetchMetadata with
  | Option.none =>
    { result with
      reachable := false
      overall_status := .FAIL
      errors := result.errors ++ ["Failed to fetch metadata"]
      rule_results := result.rule_results ++ [check_reachability Option.none] }
  | some metadata =>
    let r0 := { result with reachable := true, raw_metadata := some metadata }
    match extract_geometry_type metadata with
    | .error e =>
      { r0 with
        errors := r0.errors ++ ["Unexpected error: " ++ e]
        overall_status := .FAIL }
    | .ok gtype =>
      let r1 := { r0 with
        geometry_type_reported := some gtype
        max_record_count := mdGet metadata "maxRecordCount" PyVal.none }
      match extract_wkid metadata with
      | .error e =>
        { r1 with
          errors := r1.errors ++ ["Unexpected error: " ++ e]
          overall_status := .FAIL }
      | .ok wkid =>
        let r2 := { r1 with spatial_reference_wkid := wkid }
        let count := client.countFeatures
        let r3 := { r2 with count_estimate := count }
        let features : Option (List PyVal) :=
          match count with
          | some c => if c > 0 then client.sampleFeatures else Option.none
          | Option.none => Option.none
        let r4 := { r3 with format_supported := client.formatSupport }
        let rule_a := check_reachability (some metadata)
        let rule_b := check_queryability count (some metadata)
        let rule_c := check_metadata_completeness (some metadata)
        let rule_d := check_record_availability count
        let rule_e := check_pagination_support (some metadata) count client.pageFetch
        let rule_f := check_schema_sanity pandas features
        let rule_g := check_geometry_sanity sh features config
        let rule_h := check_update_recency dt (some metadata)
        let rule_i := check_spatial_reference (some metadata)
        let r5 := { r4 with
          rule_results := [rule_a, rule_b, rule_c, rule_d, rule_e, rule_f,
            rule_g, rule_h, rule_i]
          metadata_score := evGet rule_c.evidence "score" (PyVal.int 0)
          pagination_ok := rule_e.status.value
          null_fields_over_80pct := evGet rule_f.evidence "high_null_count" (PyVal.int 0)
          pct_invalid_geometry := evGet rule_g.evidence "pct_invalid" (PyVal.float 0)
          pct_empty_geometry := evGet rule_g.evidence "pct_empty" (PyVal.float 0)
          last_edit_date := evGet rule_h.evidence "last_edit_date" PyVal.none }
        let r6 := { r5 with overall_status := r5.aggregate_status }
        { r6 with top_issues := r6.compute_top_issues }

/-- The additive completeness score as the spec words it: +10
description, +20 geometry type, +20 extent, +20 when the field list has
at least 3 entries, +10 capabilities, +10 maxRecordCount, +10 pagination
support. -/
def claimed_metadata_score (descr geomt ext : Bool) (flen : Nat)
    (cap mrc pag : Bool) : Int :=
  (if descr then 10 else 0) + (if geomt then 20 else 0) +
  (if ext then 20 else 0) + (if flen ≥ 3 then 20 else 0) +
  (if cap then 10 else 0) + (if mrc then 10 else 0) +
  (if pag then 10 else 0)

/-- A feature record whose geometry value is present and truthy but not
a dict (e.g. a string or a number): the case C10 is about. -/
def malformedGeomFeature (f : PyVal) : Bool :=
  match f with
  | .dict kvs =>
    (dictGet kvs "geometry" PyVal.none).truthy &&
    !(dictGet kvs "geometry" PyVal.none).isDict
  | _ => false

/-- Fixture: complete metadata, as in the repository unit test. -/
def mdFull : Md :=
  [("description", .str "Test layer"),
   ("geometryType", .str "esriGeometryPolygon"),
   ("extent", .dict [("xmin", .int 0)]),
   ("fields", .list [.dict [("name", .str "OBJECTID")],
     .dict [("name", .str "NAME")], .dict [("name", .str "TYPE")]]),
   ("capabilities", .str "Query"),
   ("maxRecordCount", .int 1000),
   ("advancedQueryCapabilities", .dict [("supportsPagination", .bool true)])]

/-- Fixture: a shapely oracle that parses everything as a valid point. -/
def oracleShapely : ShapelyOps :=
  { shape := fun _ => .ok { is_valid := true, geom_type := "Point" } }

/-- Fixture: a pandas oracle whose dataframe construction always fails. -/
def oraclePandas : PandasOps := { toFrame := fun _ => .error "pandas error" }

/-- Fixture: a datetime oracle with the clock fixed at the epoch. -/
def oracleDt : DatetimeOps :=
  { fromtimestampIso := fun _ => .ok "1970-01-01T00:00:00", nowSec := 0 }

/-- Fixture: a layer config expecting point geometries. -/
def cfgPoint : LayerConfig :=
  { layer_name := "layer", service_url := "http://example", expected_geometry := "Point" }

/-- Fixture: client outcomes whose fetched metadata stores a non-string
under geometryType, so the orchestrator field extraction raises. -/
def cexClient : ClientOps :=
  { fetchMetadata := some [("geometryType", PyVal.int 5)]
    countFeatures := Option.none
    sampleFeatures := Option.none
    formatSupport := "unknown"
    pageFetch := .error "network error" }

/-- Fixture: client outcomes with benign metadata and a small sample. -/
def goodClient : ClientOps :=
  { fetchMetadata := some [("name", PyVal.str "t")]
    countFeatures := some 3
    sampleFeatures := some [PyVal.dict
      [("attributes", PyVal.dict [("OBJECTID", PyVal.int 1)]),
       ("geometry", PyVal.dict [("x", PyVal.int 1)])]]
    formatSupport := "both"
    pageFetch := .ok (PyVal.dict []) }

/-- C1: for a reachable result the aggregate is FAIL when some rule is
FAIL, WARN when none is FAIL but some is WARN, and PASS when every rule
is PASS or NA (so NA never influences aggregation); an unreachable
result aggregates to FAIL regardless of the rule list. -/
theorem aggregate_status_spec (r : LayerQAResult) :
    (r.reachable = false → r.aggregate_status = QAStatus.FAIL) ∧
    (r.reachable = true →
      ((∃ x ∈ r.rule_results, x.status = QAStatus.FAIL) →
        r.aggregate_status = QAStatus.FAIL) ∧
      ((∀ x ∈ r.rule_results, x.status ≠ QAStatus.FAIL) →
        (∃ x ∈ r.rule_results, x.status = QAStatus.WARN) →
        r.aggregate_status = QAStatus.WARN) ∧
      ((∀ x ∈ r.rule_results, x.status = QAStatus.PASS ∨ x.status = QAStatus.NA) →
        r.aggregate_status = QAStatus.PASS)) := by
  unfold LayerQAResult.aggregate_status
  constructor
  · intro h
    simp [h]
  · intro h
    simp only [h, Bool.not_true, Bool.false_eq_true, if_false, List.mem_map]
    refine ⟨?_, ?_, ?_⟩
    · intro hex
      rw [if_pos]
      obtain ⟨x, hx, hs⟩ := hex
      exact ⟨x, hx, hs⟩
    · intro hall hex
      rw [if_neg, if_pos]
      · obtain ⟨x, hx, hs⟩ := hex
        exact ⟨x, hx, hs⟩
      · rintro ⟨x, hx, hs⟩
        exact hall x hx hs
    · intro hall
      rw [if_neg, if_neg]
      · rintro ⟨x, hx, hs⟩
        rcases hall x hx with h1 | h1 <;> simp [h1] at hs
      · rintro ⟨x, hx, hs⟩
        rcases hall x hx with h1 | h1 <;> simp [h1] at hs

/-- Concrete instantiation of `aggregate_status_spec`: reachable, rules
PASS and NA, aggregate PASS. -/
theorem aggregate_status_spec_witness :
    ({ layer_name := "l", service_url := "u", reachable := true,
       rule_results := [{ rule_name := "a", status := .PASS, message := "" },
         { rule_name := "b", status := .NA, message := "" }] } :
      LayerQAResult).aggregate_status = QAStatus.PASS := by
  refine ((aggregate_status_spec _).2 rfl).2.2 ?_
  intro x hx
  simp only [List.mem_cons, List.mem_singleton, List.not_mem_nil] at hx
  rcases hx with h | h | h
  · left; rw [h]
  · right; rw [h]
  · exact absurd h (by simp)

/-- The fold that `compute_top_issues` runs is the filter-map of the
FAIL/WARN rules, appended to the accumulator. -/
theorem foldl_issues_eq (l : List RuleResult) (acc : List String) :
    l.foldl (fun acc res =>
      if res.status = QAStatus.FAIL ∨ res.status = QAStatus.WARN then
        acc ++ [res.rule_name ++ ": " ++ res.message]
      else acc) acc =
    acc ++ (l.filter (fun res =>
        res.status = QAStatus.FAIL ∨ res.status = QAStatus.WARN)).map
      (fun res => res.rule_name ++ ": " ++ res.message) := by
  induction l generalizing acc with
  | nil => simp
  | cons x xs ih =>
    simp only [List.foldl_cons, List.filter_cons]
    by_cases hx : x.status = QAStatus.FAIL ∨ x.status = QAStatus.WARN
    · rw [if_pos hx, ih]
      simp [hx]
    · rw [if_neg hx, ih]
      simp [hx]

/-- C6: the top-issues digest is the "name: message" strings of exactly
the FAIL/WARN rules, in evaluation order, truncated to the first 3 and
joined with "; "; with no FAIL/WARN rule it is the empty string. -/
theorem compute_top_issues_spec (r : LayerQAResult) :
    r.compute_top_issues = String.intercalate "; "
      (((r.rule_results.filter (fun res =>
          res.status = QAStatus.FAIL ∨ res.status = QAStatus.WARN)).map
        (fun res => res.rule_name ++ ": " ++ res.message)).take 3) ∧
    ((∀ x ∈ r.rule_results, x.status ≠ QAStatus.FAIL ∧ x.status ≠ QAStatus.WARN) →
      r.compute_top_issues = "") := by
  have hfold := foldl_issues_eq r.rule_results []
  constructor
  · unfold LayerQAResult.compute_top_issues
    rw [hfold]
    simp
  · intro hall
    unfold LayerQAResult.compute_top_issues
    rw [hfold]
    have hnil : r.rule_results.filter (fun res =>
        res.status = QAStatus.FAIL ∨ res.status = QAStatus.WARN) = [] := by
      rw [List.filter_eq_nil_iff]
      intro x hx
      simp only [decide_eq_true_eq]
      rintro (h | h)
      · exact (hall x hx).1 h
      · exact (hall x hx).2 h
    rw [hnil]
    rfl

/-- Concrete instantiation of `compute_top_issues_spec`: four rules, of
which FAIL, WARN, WARN are issues - the digest keeps the first three in
order. -/
theorem compute_top_issues_spec_witness :
    ({ layer_name := "l", service_url := "u",
       rule_results := [{ rule_name := "a", status := .FAIL, message := "m1" },
         { rule_name := "b", status := .PASS, message := "x" },
         { rule_name := "c", status := .WARN, message := "m2" },
         { rule_name := "d", status := .WARN, message := "m3" }] } :
      LayerQAResult).compute_top_issues = "a: m1; c: m2; d: m3" := by
  rw [(compute_top_issues_spec _).1]
  rfl

/-- C7 (corrected): `check_record_availability` returns WARN exactly on
an absent or zero count, PASS exactly on a present nonzero count (a
negative count also yields PASS, which is why the claim "greater than
0" fails), and always records the count in evidence. -/
theorem record_availability_spec (count : Option Int) :
    ((check_record_availability count).status = QAStatus.WARN ↔
      count = Option.none ∨ count = some 0) ∧
    ((check_record_availability count).status = QAStatus.PASS ↔
      ∃ n, count = some n ∧ n ≠ 0) ∧
    (check_record_availability count).evidence =
      [("count", match count with
        | Option.none => PyVal.none
        | some n => PyVal.int n)] := by
  cases count with
  | none => simp [check_record_availability, record_availability_body]
  | some n =>
    by_cases hn : n = 0
    · subst hn
      simp [check_record_availability, record_availability_body]
    · simp [check_record_availability, record_availability_body, hn]

/-- Concrete instantiation of `record_availability_spec`: count 5 gives
PASS. -/
theorem record_availability_spec_witness :
    (check_record_availability (some 5)).status = QAStatus.PASS :=
  (record_availability_spec (some 5)).2.1.2 ⟨5, rfl, by decide⟩

/-- C7 counterexample: the claim says PASS holds if and only if the
count is greater than 0, but the code returns PASS for the count -1 as
well (it only special-cases 0), so the "only if" direction is false. -/
theorem record_availability_negative_cex :
    (check_record_availability (some (-1))).status = QAStatus.PASS ∧
    ¬((-1 : Int) > 0) := by
  exact ⟨rfl, by decide⟩

/-- C4 counterexample: for the metadata mapping storing the integer 5
under "fields", `len(fields)` raises, the except clause returns FAIL
with only error and score evidence, and no per-component breakdown map
is recorded - contradicting the claim that the breakdown is recorded
for every metadata input regardless of status. -/
theorem metadata_completeness_components_cex :
    (check_metadata_completeness (some [("fields", PyVal.int 5)])).status =
      QAStatus.FAIL ∧
    List.lookup "components"
      (check_metadata_completeness (some [("fields", PyVal.int 5)])).evidence =
      Option.none := by
  exact ⟨rfl, rfl⟩

/-- C4 (amended): whenever the internal lookups do not raise (the value
under "fields" has a length and the advanced-query capabilities value
supports `.get`), the rule records the additive score and the
per-component breakdown, and the status is PASS iff score >= 70, WARN
iff 40 <= score < 70, FAIL iff score < 40; absent metadata yields FAIL
with score 0. -/
theorem mc_result_spec (score : Int) (components : List (String × PyVal)) :
    ∃ r, mc_result score components = Except.ok r ∧
      r.evidence = [("score", PyVal.int score),
        ("components", PyVal.dict components)] ∧
      (r.status = QAStatus.PASS ↔ 70 ≤ score) ∧
      (r.status = QAStatus.WARN ↔ 40 ≤ score ∧ score < 70) ∧
      (r.status = QAStatus.FAIL ↔ score < 40) := by
  unfold mc_result
  split_ifs with hA hB
  · exact ⟨_, rfl, rfl, by simp; omega, by simp; omega, by simp; omega⟩
  · exact ⟨_, rfl, rfl, by simp; omega, by simp; omega, by simp; omega⟩
  · exact ⟨_, rfl, rfl, by simp; omega, by simp; omega, by simp; omega⟩

theorem metadata_completeness_score_spec (m : Md) (flen : Nat) (p1 p2 : PyVal)
    (hf : pyLen (mdGet m "fields" (PyVal.list [])) = Except.ok flen)
    (h1 : pyGet (mdGet m "advancedQueryCapabilities" (PyVal.dict []))
      "supportsPagination" PyVal.none = Except.ok p1)
    (h2 : pyGet (mdGet m "advancedQueryCapabilities" (PyVal.dict []))
      "supportsQueryWithPagination" PyVal.none = Except.ok p2) :
    let descr := (mdGet m "description" PyVal.none).truthy
    let geomt := (mdGet m "geometryType" PyVal.none).truthy
    let ext := (mdGet m "extent" PyVal.none).truthy
    let cap := (mdGet m "capabilities" PyVal.none).truthy
    let mrc := (mdGet m "maxRecordCount" PyVal.none).truthy
    let pag := p1.truthy || p2.truthy
    let score := claimed_metadata_score descr geomt ext flen cap mrc pag
    let r := check_metadata_completeness (some m)
    r.evidence = [("score", PyVal.int score), ("components", PyVal.dict
      [("description", .bool descr), ("geometryType", .bool geomt),
       ("extent", .bool ext), ("fields", .int flen),
       ("capabilities", .bool cap), ("maxRecordCount", .bool mrc),
       ("pagination", .bool pag)])] ∧
    (r.status = QAStatus.PASS ↔ 70 ≤ score) ∧
    (r.status = QAStatus.WARN ↔ 40 ≤ score ∧ score < 70) ∧
    (r.status = QAStatus.FAIL ↔ score < 40) ∧
    (check_metadata_completeness Option.none).status = QAStatus.FAIL ∧
    (check_metadata_completeness Option.none).evidence =
      [("score", PyVal.int 0), ("components", PyVal.dict [])] := by
  obtain ⟨rr, hmc, hev, hp, hw, hf40⟩ := mc_result_spec
    (claimed_metadata_score (mdGet m "description" PyVal.none).truthy
      (mdGet m "geometryType" PyVal.none).truthy
      (mdGet m "extent" PyVal.none).truthy flen
      (mdGet m "capabilities" PyVal.none).truthy
      (mdGet m "maxRecordCount" PyVal.none).truthy
      (p1.truthy || p2.truthy))
    [("description", .bool (mdGet m "description" PyVal.none).truthy),
     ("geometryType", .bool (mdGet m "geometryType" PyVal.none).truthy),
     ("extent", .bool (mdGet m "extent" PyVal.none).truthy),
     ("fields", .int flen),
     ("capabilities", .bool (mdGet m "capabilities" PyVal.none).truthy),
     ("maxRecordCount", .bool (mdGet m "maxRecordCount" PyVal.none).truthy),
     ("pagination", .bool (p1.truthy || p2.truthy))]
  have hbody : metadata_completeness_body (some m) = mc_result
      (claimed_metadata_score (mdGet m "description" PyVal.none).truthy
        (mdGet m "geometryType" PyVal.none).truthy
        (mdGet m "extent" PyVal.none).truthy flen
        (mdGet m "capabilities" PyVal.none).truthy
        (mdGet m "maxRecordCount" PyVal.none).truthy
        (p1.truthy || p2.truthy))
      [("description", .bool (mdGet m "description" PyVal.none).truthy),
       ("geometryType", .bool (mdGet m "geometryType" PyVal.none).truthy),
       ("extent", .bool (mdGet m "extent" PyVal.none).truthy),
       ("fields", .int flen),
       ("capabilities", .bool (mdGet m "capabilities" PyVal.none).truthy),
       ("maxRecordCount", .bool (mdGet m "maxRecordCount" PyVal.none).truthy),
       ("pagination", .bool (p1.truthy || p2.truthy))] := by
    simp only [metadata_completeness_body, hf, h1, h2, claimed_metadata_score]
  have hcheck : check_metadata_completeness (some m) = rr := by
    unfold check_metadata_completeness
    rw [hbody, hmc]
  refine ⟨?_, ?_, ?_, ?_, rfl, rfl⟩
  · rw [hcheck]
    exact hev
  · rw [hcheck]
    exact hp
  · rw [hcheck]
    exact hw
  · rw [hcheck]
    exact hf40

/-- Concrete instantiation of `metadata_completeness_score_spec`: with
all seven components present the score is exactly 100 and the status is
PASS. -/
theorem metadata_completeness_score_spec_witness :
    (check_metadata_completeness (some mdFull)).status = QAStatus.PASS ∧
    evGet (check_metadata_completeness (some mdFull)).evidence "score"
      PyVal.none = PyVal.int 100 := by
  have h := metadata_completeness_score_spec mdFull 3 (PyVal.bool true)
    PyVal.none rfl rfl rfl
  exact ⟨h.2.1.mpr (by decide), by rw [evGet, h.1]; rfl⟩

/-- C8 counterexample: for present metadata whose extent is a string,
`extent.get("spatialReference", ...)` raises, the rule returns FAIL with
only error evidence - contradicting the claim that every present
metadata input yields WARN/WARN/PASS with the identifier always
recorded in evidence. -/
theorem spatial_reference_malformed_cex :
    (check_spatial_reference (some [("extent", PyVal.str "nope")])).status =
      QAStatus.FAIL ∧
    List.lookup "wkid"
      (check_spatial_reference (some [("extent", PyVal.str "nope")])).evidence =
      Option.none := by
  exact ⟨rfl, rfl⟩

/-- C8 (amended): whenever the spatial-reference extraction does not
raise (extent and spatialReference are maps when present, a truthy wkt
is sliceable), the rule is WARN when neither a truthy identifier nor a
truthy wkt is found, WARN when the identifier is present but not in the
fixed allow-list 4326/3857/2263/2264/26918/26919, and PASS otherwise,
with the identifier and the truncated wkt always recorded as evidence;
absent metadata yields NA. -/
theorem spatial_reference_spec (m : Md) (wkid wkt_str wkt_ev : PyVal)
    (h : srExtract m = Except.ok (wkid, wkt_str, wkt_ev)) :
    (check_spatial_reference (some m)).evidence =
      [("wkid", wkid), ("wkt", wkt_ev)] ∧
    (wkid.truthy = false → wkt_str.truthy = false →
      (check_spatial_reference (some m)).status = QAStatus.WARN) ∧
    (wkid.truthy = true → common_wkids.any (fun k => pyEqInt wkid k) = false →
      (check_spatial_reference (some m)).status = QAStatus.WARN) ∧
    (wkid.truthy = true → common_wkids.any (fun k => pyEqInt wkid k) = true →
      (check_spatial_reference (some m)).status = QAStatus.PASS) ∧
    (wkid.truthy = false → wkt_str.truthy = true →
      (check_spatial_reference (some m)).status = QAStatus.PASS) ∧
    (check_spatial_reference Option.none).status = QAStatus.NA := by
  have hbody : spatial_reference_body (some m) = sr_result wkid wkt_str wkt_ev := by
    simp only [spatial_reference_body, h]
  refine ⟨?_, fun h1 h2 => ?_, fun h1 h2 => ?_, fun h1 h2 => ?_,
    fun h1 h2 => ?_, rfl⟩ <;>
    unfold check_spatial_reference <;> rw [hbody] <;> unfold sr_result
  · split_ifs <;> rfl
  · simp [h1, h2]
  · simp [h1, h2]
  · simp [h1, h2]
  · simp [h1, h2]

/-- Concrete instantiation of `spatial_reference_spec`: wkid 4326 (in
the allow-list) gives PASS. -/
theorem spatial_reference_spec_witness :
    (check_spatial_reference (some [("extent", PyVal.dict
      [("spatialReference", PyVal.dict [("wkid", PyVal.int 4326)])])])).status =
      QAStatus.PASS := by
  exact (spatial_reference_spec
    [("extent", PyVal.dict [("spatialReference", PyVal.dict
      [("wkid", PyVal.int 4326)])])]
    (PyVal.int 4326) PyVal.none PyVal.none rfl).2.2.2.1 rfl rfl

/-- C3: every rule function is a total function returning a
`RuleResult` whose value is the translated body result on the normal
path, and, whenever the body raises (the `Except.error` case, covering
malformed metadata, features, geometries and library faults under any
oracle behaviour), the except-clause result: status FAIL (WARN for
record_availability, whose except clause is milder) with the failure
description recorded in evidence under the "error" key. -/
theorem rules_never_raise_spec :
    (∀ md r, reachability_body md = Except.ok r → check_reachability md = r) ∧
    (∀ md e, reachability_body md = Except.error e → check_reachability md =
      { rule_name := "reachability", status := QAStatus.FAIL,
        message := "Exception during reachability check: " ++ e,
        evidence := [("error", PyVal.str e)] }) ∧
    (∀ c md r, queryability_body c md = Except.ok r →
      check_queryability c md = r) ∧
    (∀ c md e, queryability_body c md = Except.error e →
      check_queryability c md =
      { rule_name := "queryability", status := QAStatus.FAIL,
        message := "Exception: " ++ e,
        evidence := [("error", PyVal.str e)] }) ∧
    (∀ md r, metadata_completeness_body md = Except.ok r →
      check_metadata_completeness md = r) ∧
    (∀ md e, metadata_completeness_body md = Except.error e →
      check_metadata_completeness md =
      { rule_name := "metadata_completeness", status := QAStatus.FAIL,
        message := "Exception: " ++ e,
        evidence := [("error", PyVal.str e), ("score", PyVal.int 0)] }) ∧
    (∀ c r, record_availability_body c = Except.ok r →
      check_record_availability c = r) ∧
    (∀ c e, record_availability_body c = Except.error e →
      check_record_availability c =
      { rule_name := "record_availability", status := QAStatus.WARN,
        message := "Exception: " ++ e,
        evidence := [("error", PyVal.str e)] }) ∧
    (∀ md c pf r, pagination_body md c pf = Except.ok r →
      check_pagination_support md c pf = r) ∧
    (∀ md c pf e, pagination_body md c pf = Except.error e →
      check_pagination_support md c pf =
      { rule_name := "pagination_support", status := QAStatus.FAIL,
        message := "Exception: " ++ e,
        evidence := [("error", PyVal.str e)] }) ∧
    (∀ pd fs r, schema_body pd fs = Except.ok r → check_schema_sanity pd fs = r) ∧
    (∀ pd fs e, schema_body pd fs = Except.error e → check_schema_sanity pd fs =
      { rule_name := "schema_sanity", status := QAStatus.FAIL,
        message := "Exception: " ++ e,
        evidence := [("error", PyVal.str e)] }) ∧
    (∀ sh fs cfg r, geometry_body sh fs cfg = Except.ok r →
      check_geometry_sanity sh fs cfg = r) ∧
    (∀ sh fs cfg e, geometry_body sh fs cfg = Except.error e →
      check_geometry_sanity sh fs cfg =
      { rule_name := "geometry_sanity", status := QAStatus.FAIL,
        message := "Exception: " ++ e,
        evidence := [("error", PyVal.str e)] }) ∧
    (∀ dt th md r, update_recency_body dt th md = Except.ok r →
      check_update_recency dt md th = r) ∧
    (∀ dt th md e, update_recency_body dt th md = Except.error e →
      check_update_recency dt md th =
      { rule_name := "update_recency", status := QAStatus.FAIL,
        message := "Exception: " ++ e,
        evidence := [("error", PyVal.str e)] }) ∧
    (∀ md r, spatial_reference_body md = Except.ok r →
      check_spatial_reference md = r) ∧
    (∀ md e, spatial_reference_body md = Except.error e →
      check_spatial_reference md =
      { rule_name := "spatial_reference", status := QAStatus.FAIL,
        message := "Exception: " ++ e,
        evidence := [("error", PyVal.str e)] }) := by
  refine ⟨?_, ?_, ?_, ?_, ?_, ?_, ?_, ?_, ?_, ?_, ?_, ?_, ?_, ?_, ?_, ?_, ?_, ?_⟩
  · intro md r h
    unfold check_reachability
    rw [h]
  · intro md e h
    unfold check_reachability
    rw [h]
  · intro c md r h
    unfold check_queryability
    rw [h]
  · intro c md e h
    unfold check_queryability
    rw [h]
  · intro md r h
    unfold check_metadata_completeness
    rw [h]
  · intro md e h
    unfold check_metadata_completeness
    rw [h]
  · intro c r h
    unfold check_record_availability
    rw [h]
  · intro c e h
    unfold check_record_availability
    rw [h]
  · intro md c pf r h
    unfold check_pagination_support
    rw [h]
  · intro md c pf e h
    unfold check_pagination_support
    rw [h]
  · intro pd fs r h
    unfold check_schema_sanity
    rw [h]
  · intro pd fs e h
    unfold check_schema_sanity
    rw [h]
  · intro sh fs cfg r h
    unfold check_geometry_sanity
    rw [h]
  · intro sh fs cfg e h
    unfold check_geometry_sanity
    rw [h]
  · intro dt th md r h
    unfold check_update_recency
    rw [h]
  · intro dt th md e h
    unfold check_update_recency
    rw [h]
  · intro md r h
    unfold check_spatial_reference
    rw [h]
  · intro md e h
    unfold check_spatial_reference
    rw [h]

/-- Concrete instantiation of `rules_never_raise_spec`: a sample whose
single feature is a bare string makes the schema body raise at
`feature.get("attributes", ...)`, and the rule converts that into a
normal FAIL result carrying the error evidence. -/
theorem rules_never_raise_witness :
    check_schema_sanity oraclePandas (some [PyVal.str "bad"]) =
      { rule_name := "schema_sanity", status := QAStatus.FAIL,
        message := "Exception: AttributeError: object has no attribute get",
        evidence := [("error",
          PyVal.str "AttributeError: object has no attribute get")] } := by
  exact rules_never_raise_spec.2.2.2.2.2.2.2.2.2.2.2.1 oraclePandas
    (some [PyVal.str "bad"]) "AttributeError: object has no attribute get" rfl

/-- C9: every rule of the embedding is a pure function of its declared
inputs, so evaluating it twice at fixed inputs yields identical results;
the only time dependence in the source, `datetime.now()` inside
`check_update_recency`, is the explicit `nowSec` field of the
`DatetimeOps` argument here, so that rule too is reproducible once the
"now" is fixed. -/
theorem rules_deterministic_spec :
    (∀ md, check_reachability md = check_reachability md) ∧
    (∀ c md, check_queryability c md = check_queryability c md) ∧
    (∀ md, check_metadata_completeness md = check_metadata_completeness md) ∧
    (∀ c, check_record_availability c = check_record_availability c) ∧
    (∀ md c pf, check_pagination_support md c pf =
      check_pagination_support md c pf) ∧
    (∀ pd fs, check_schema_sanity pd fs = check_schema_sanity pd fs) ∧
    (∀ sh fs cfg, check_geometry_sanity sh fs cfg =
      check_geometry_sanity sh fs cfg) ∧
    (∀ dt md th, check_update_recency dt md th = check_update_recency dt md th) ∧
    (∀ md, check_spatial_reference md = check_spatial_reference md) := by
  exact ⟨fun _ => rfl, fun _ _ => rfl, fun _ => rfl, fun _ => rfl,
    fun _ _ _ => rfl, fun _ _ => rfl, fun _ _ _ => rfl, fun _ _ _ => rfl,
    fun _ => rfl⟩

/-- One step of the counting loop on a dict feature always reaches the
rest of the list (no raise), with some updated accumulator. -/
theorem geometry_loop_cons_dict (sh : ShapelyOps) (config : LayerConfig)
    (kvs : List (String × PyVal)) (rest : List PyVal) (e i m : Nat) :
    ∃ acc2, geometry_loop sh config (PyVal.dict kvs :: rest) (e, i, m) =
      geometry_loop sh config rest acc2 := by
  simp only [geometry_loop, pyGet]
  by_cases hb : (dictGet kvs "geometry" PyVal.none).truthy
  · simp only [hb, Bool.not_true, Bool.false_eq_true, if_false]
    cases hv : dictGet kvs "geometry" PyVal.none with
    | none =>
      rw [hv] at hb
      simp [PyVal.truthy] at hb
    | dict kvs2 =>
      by_cases ha : kvs2.any (fun kv => kv.2.truthy)
      · simp only [ha, Bool.not_true, Bool.false_eq_true, if_false]
        cases hs : sh.shape kvs2 with
        | error err => exact ⟨_, rfl⟩
        | ok geom => exact ⟨_, rfl⟩
      · simp only [Bool.not_eq_true] at ha
        simp only [ha, Bool.not_false, if_true]
        exact ⟨_, rfl⟩
    | bool b => exact ⟨_, rfl⟩
    | int n => exact ⟨_, rfl⟩
    | float q => exact ⟨_, rfl⟩
    | str s => exact ⟨_, rfl⟩
    | list xs => exact ⟨_, rfl⟩
  · simp only [Bool.not_eq_true] at hb
    simp only [hb, Bool.not_false, if_true]
    exact ⟨_, rfl⟩

/-- On a list of dict features the counting loop never raises. -/
theorem geometry_loop_ok (sh : ShapelyOps) (config : LayerConfig) :
    ∀ (fs : List PyVal) (acc : Nat × Nat × Nat),
      (∀ f ∈ fs, f.isDict = true) →
      ∃ c, geometry_loop sh config fs acc = Except.ok c := by
  intro fs
  induction fs with
  | nil =>
    intro acc _
    exact ⟨acc, rfl⟩
  | cons f rest ih =>
    intro acc hall
    obtain ⟨e, i, m⟩ := acc
    have hf : f.isDict = true := hall f (List.mem_cons_self _ _)
    have hrest : ∀ g ∈ rest, g.isDict = true :=
      fun g hg => hall g (List.mem_cons_of_mem _ hg)
    cases f with
    | dict kvs =>
      obtain ⟨acc2, hstep⟩ := geometry_loop_cons_dict sh config kvs rest e i m
      rw [hstep]
      exact ih acc2 hrest
    | none => simp [PyVal.isDict] at hf
    | bool b => simp [PyVal.isDict] at hf
    | int n => simp [PyVal.isDict] at hf
    | float q => simp [PyVal.isDict] at hf
    | str s => simp [PyVal.isDict] at hf
    | list xs => simp [PyVal.isDict] at hf

/-- Characterisation of the geometry verdict block for a positive sample
size: the status follows the FAIL/WARN/WARN/PASS threshold chain on the
unguarded percentages, FAIL happens exactly when the empty or invalid
percentage exceeds 25 (the mismatch percentage never causes FAIL), and
the evidence lists the raw counts and the three rounded percentages. -/
theorem geom_result_spec (total ec ic mc : Nat) (htot : total > 0) :
    ∃ r, geom_result total ec ic mc = Except.ok r ∧
      r.status =
        (if ((ec : ℚ) / (total : ℚ)) * 100 > 25 ∨
            ((ic : ℚ) / (total : ℚ)) * 100 > 25 then QAStatus.FAIL
         else if ((ec : ℚ) / (total : ℚ)) * 100 > 5 ∨
            ((ic : ℚ) / (total : ℚ)) * 100 > 5 then QAStatus.WARN
         else if ((mc : ℚ) / (total : ℚ)) * 100 > 10 then QAStatus.WARN
         else QAStatus.PASS) ∧
      (r.status = QAStatus.FAIL ↔ ((ec : ℚ) / (total : ℚ)) * 100 > 25 ∨
        ((ic : ℚ) / (total : ℚ)) * 100 > 25) ∧
      r.evidence =
        [("total_features", .int total), ("empty_count", .int ec),
         ("invalid_count", .int ic), ("type_mismatch_count", .int mc),
         ("pct_empty", .float (round2 (((ec : ℚ) / (total : ℚ)) * 100))),
         ("pct_invalid", .float (round2 (((ic : ℚ) / (total : ℚ)) * 100))),
         ("pct_mismatch", .float (round2 (((mc : ℚ) / (total : ℚ)) * 100)))] := by
  unfold geom_result
  rw [if_pos htot, if_pos htot, if_pos htot]
  dsimp only
  split_ifs with h1 h2 h3
  · exact ⟨_, rfl, rfl, by simp [h1], rfl⟩
  · exact ⟨_, rfl, rfl, by simp [h1], rfl⟩
  · exact ⟨_, rfl, rfl, by simp [h1], rfl⟩
  · exact ⟨_, rfl, rfl, by simp [h1], rfl⟩

/-- C5: on a non-empty all-dict sample, `check_geometry_sanity` counts
empty/invalid/mismatched geometries, returns FAIL iff empty% > 25 or
invalid% > 25, else WARN iff empty% > 5 or invalid% > 5 or mismatch% >
10, else PASS (the mismatch count can only produce WARN, and only once
the empty and invalid percentages are below their own thresholds), and
records the raw counts and the percentages rounded to 2 decimals in
evidence; with no sampled features the status is NA. -/
theorem geometry_sanity_verdict_spec (sh : ShapelyOps) (config : LayerConfig)
    (fs : List PyVal) (hne : fs ≠ []) (hd : ∀ f ∈ fs, f.isDict = true) :
    (∃ ec ic mc,
      geometry_loop sh config fs (0, 0, 0) = Except.ok (ec, ic, mc) ∧
      (check_geometry_sanity sh (some fs) config).status =
        (if ((ec : ℚ) / (fs.length : ℚ)) * 100 > 25 ∨
            ((ic : ℚ) / (fs.length : ℚ)) * 100 > 25 then QAStatus.FAIL
         else if ((ec : ℚ) / (fs.length : ℚ)) * 100 > 5 ∨
            ((ic : ℚ) / (fs.length : ℚ)) * 100 > 5 then QAStatus.WARN
         else if ((mc : ℚ) / (fs.length : ℚ)) * 100 > 10 then QAStatus.WARN
         else QAStatus.PASS) ∧
      ((check_geometry_sanity sh (some fs) config).status = QAStatus.FAIL ↔
        ((ec : ℚ) / (fs.length : ℚ)) * 100 > 25 ∨
        ((ic : ℚ) / (fs.length : ℚ)) * 100 > 25) ∧
      (check_geometry_sanity sh (some fs) config).evidence =
        [("total_features", .int fs.length), ("empty_count", .int ec),
         ("invalid_count", .int ic), ("type_mismatch_count", .int mc),
         ("pct_empty", .float (round2 (((ec : ℚ) / (fs.length : ℚ)) * 100))),
         ("pct_invalid", .float (round2 (((ic : ℚ) / (fs.length : ℚ)) * 100))),
         ("pct_mismatch",
          .float (round2 (((mc : ℚ) / (fs.length : ℚ)) * 100)))]) ∧
    (check_geometry_sanity sh (some []) config).status = QAStatus.NA ∧
    (check_geometry_sanity sh Option.none config).status = QAStatus.NA := by
  obtain ⟨⟨ec, ic, mc⟩, hloop⟩ := geometry_loop_ok sh config fs (0, 0, 0) hd
  have htot : fs.length > 0 := List.length_pos.mpr hne
  obtain ⟨rr, hgr, hst, hiff, hev⟩ := geom_result_spec fs.length ec ic mc htot
  have hbody : geometry_body sh (some fs) config = Except.ok rr := by
    cases fs with
    | nil => exact absurd rfl hne
    | cons f rest =>
      simp only [geometry_body, hloop]
      exact hgr
  have hcheck : check_geometry_sanity sh (some fs) config = rr := by
    unfold check_geometry_sanity
    rw [hbody]
  refine ⟨⟨ec, ic, mc, hloop, ?_, ?_, ?_⟩, rfl, rfl⟩
  · rw [hcheck]
    exact hst
  · rw [hcheck]
    exact hiff
  · rw [hcheck]
    exact hev

/-- Concrete instantiation of `geometry_sanity_verdict_spec`: a single
feature with a valid, type-matching point geometry gives PASS. -/
theorem geometry_sanity_verdict_spec_witness :
    (check_geometry_sanity oracleShapely
      (some [PyVal.dict [("geometry", PyVal.dict [("x", PyVal.int 1)])]])
      cfgPoint).status = QAStatus.PASS := by
  obtain ⟨⟨ec, ic, mc, hloop, hst, -, -⟩, -, -⟩ :=
    geometry_sanity_verdict_spec oracleShapely cfgPoint
      [PyVal.dict [("geometry", PyVal.dict [("x", PyVal.int 1)])]]
      (by simp) (by decide)
  have h0 : geometry_loop oracleShapely cfgPoint
      [PyVal.dict [("geometry", PyVal.dict [("x", PyVal.int 1)])]] (0, 0, 0) =
      Except.ok (0, 0, 0) := rfl
  rw [h0] at hloop
  injection hloop with hloop
  obtain ⟨h1, h2, h3⟩ : ec = 0 ∧ ic = 0 ∧ mc = 0 := by
    refine ⟨?_, ?_, ?_⟩ <;> cases hloop <;> rfl
  subst h1
  subst h2
  subst h3
  rw [hst]
  norm_num

/-- One loop step on a feature whose geometry is truthy but not a dict
leaves the accumulator unchanged: the feature is counted in neither the
empty, nor the invalid, nor the mismatch bucket. -/
theorem geometry_loop_cons_skip (sh : ShapelyOps) (config : LayerConfig)
    (kvs : List (String × PyVal)) (rest : List PyVal) (acc : Nat × Nat × Nat)
    (ht : (dictGet kvs "geometry" PyVal.none).truthy = true)
    (hd : (dictGet kvs "geometry" PyVal.none).isDict = false) :
    geometry_loop sh config (PyVal.dict kvs :: rest) acc =
      geometry_loop sh config rest acc := by
  obtain ⟨e, i, m⟩ := acc
  simp only [geometry_loop, pyGet]
  cases hv : dictGet kvs "geometry" PyVal.none with
  | none =>
    rw [hv] at ht
    simp [PyVal.truthy] at ht
  | dict kvs2 =>
    rw [hv] at hd
    simp [PyVal.isDict] at hd
  | bool b =>
    rw [hv] at ht
    simp only [ht, Bool.not_true, Bool.false_eq_true, if_false]
  | int n =>
    rw [hv] at ht
    simp only [ht, Bool.not_true, Bool.false_eq_true, if_false]
  | float q =>
    rw [hv] at ht
    simp only [ht, Bool.not_true, Bool.false_eq_true, if_false]
  | str s =>
    rw [hv] at ht
    simp only [ht, Bool.not_true, Bool.false_eq_true, if_false]
  | list xs =>
    rw [hv] at ht
    simp only [ht, Bool.not_true, Bool.false_eq_true, if_false]

/-- A sample made entirely of features with truthy non-dict geometry
values leaves the counts exactly as they started. -/
theorem geometry_loop_skip_all (sh : ShapelyOps) (config : LayerConfig) :
    ∀ (fs : List PyVal) (acc : Nat × Nat × Nat),
      (∀ f ∈ fs, malformedGeomFeature f = true) →
      geometry_loop sh config fs acc = Except.ok acc := by
  intro fs
  induction fs with
  | nil =>
    intro acc _
    rfl
  | cons f rest ih =>
    intro acc hall
    have hf := hall f (List.mem_cons_self _ _)
    have hrest : ∀ g ∈ rest, malformedGeomFeature g = true :=
      fun g hg => hall g (List.mem_cons_of_mem _ hg)
    cases f with
    | dict kvs =>
      simp only [malformedGeomFeature, Bool.and_eq_true, Bool.not_eq_true'] at hf
      obtain ⟨ht, hd⟩ := hf
      rw [geometry_loop_cons_skip sh config kvs rest acc ht hd]
      exact ih acc hrest
    | none => simp [malformedGeomFeature] at hf
    | bool b => simp [malformedGeomFeature] at hf
    | int n => simp [malformedGeomFeature] at hf
    | float q => simp [malformedGeomFeature] at hf
    | str s => simp [malformedGeomFeature] at hf
    | list xs => simp [malformedGeomFeature] at hf

/-- C10: a feature whose geometry value is present (truthy) but not a
dict is silently excluded from the empty, invalid and mismatch counts
while still counted in the total, so a non-empty sample consisting
entirely of such features yields issue counts 0, percentages 0, and
status PASS. -/
theorem geometry_sanity_skip_nondict_spec (sh : ShapelyOps)
    (config : LayerConfig) (fs : List PyVal) (hne : fs ≠ [])
    (hall : ∀ f ∈ fs, malformedGeomFeature f = true) :
    geometry_loop sh config fs (0, 0, 0) = Except.ok (0, 0, 0) ∧
    (check_geometry_sanity sh (some fs) config).status = QAStatus.PASS ∧
    (check_geometry_sanity sh (some fs) config).evidence =
      [("total_features", PyVal.int fs.length), ("empty_count", PyVal.int 0),
       ("invalid_count", PyVal.int 0), ("type_mismatch_count", PyVal.int 0),
       ("pct_empty", PyVal.float 0), ("pct_invalid", PyVal.float 0),
       ("pct_mismatch", PyVal.float 0)] := by
  have hloop := geometry_loop_skip_all sh config fs (0, 0, 0) hall
  have htot : fs.length > 0 := List.length_pos.mpr hne
  obtain ⟨rr, hgr, hst, hiff, hev⟩ := geom_result_spec fs.length 0 0 0 htot
  have hbody : geometry_body sh (some fs) config = Except.ok rr := by
    cases fs with
    | nil => exact absurd rfl hne
    | cons f rest =>
      simp only [geometry_body, hloop]
      exact hgr
  have hcheck : check_geometry_sanity sh (some fs) config = rr := by
    unfold check_geometry_sanity
    rw [hbody]
  have hzero : ((0 : ℕ) : ℚ) / (fs.length : ℚ) * 100 = 0 := by
    simp
  refine ⟨hloop, ?_, ?_⟩
  · rw [hcheck, hst, hzero]
    norm_num
  · rw [hcheck, hev, hzero]
    norm_num [round2]

/-- Concrete instantiation of `geometry_sanity_skip_nondict_spec`: a
single feature whose geometry is the string "oops" gives PASS. -/
theorem geometry_sanity_skip_nondict_spec_witness :
    (check_geometry_sanity oracleShapely
      (some [PyVal.dict [("geometry", PyVal.str "oops")]]) cfgPoint).status =
      QAStatus.PASS :=
  (geometry_sanity_skip_nondict_spec oracleShapely cfgPoint
    [PyVal.dict [("geometry", PyVal.str "oops")]]
    (by simp) (by decide)).2.1

/-- Every successful mc_result carries the metadata rule name. -/
theorem mc_result_name (s : Int) (comps : List (String × PyVal))
    (r : RuleResult) (h : mc_result s comps = Except.ok r) :
    r.rule_name = "metadata_completeness" := by
  unfold mc_result at h
  try dsimp only at h
  repeat' split at h
  all_goals injection h with h
  all_goals subst h
  all_goals rfl

/-- Every successful sr_result carries the spatial rule name. -/
theorem sr_result_name (wkid wkt_str wkt_ev : PyVal) (r : RuleResult)
    (h : sr_result wkid wkt_str wkt_ev = Except.ok r) :
    r.rule_name = "spatial_reference" := by
  unfold sr_result at h
  try dsimp only at h
  repeat' split at h
  all_goals injection h with h
  all_goals subst h
  all_goals rfl

/-- Every successful geom_result carries the geometry rule name. -/
theorem geom_result_name (t ec ic mc : Nat) (r : RuleResult)
    (h : geom_result t ec ic mc = Except.ok r) :
    r.rule_name = "geometry_sanity" := by
  unfold geom_result at h
  try dsimp only at h
  repeat' split at h
  all_goals injection h with h
  all_goals subst h
  all_goals rfl

/-- The check_reachability result always carries its fixed rule name. -/
theorem check_reachability_name (md : Option Md) :
    (check_reachability md).rule_name = "reachability" := by
  unfold check_reachability
  cases h : reachability_body md with
  | ok r =>
    unfold reachability_body at h
    try dsimp only at h
    repeat' split at h
    all_goals first
      | (injection h with h; subst h; rfl)
      | (injection h)
  | error e => rfl

/-- The check_queryability result always carries its fixed rule name. -/
theorem check_queryability_name (c : Option Int) (md : Option Md) :
    (check_queryability c md).rule_name = "queryability" := by
  unfold check_queryability
  cases h : queryability_body c md with
  | ok r =>
    unfold queryability_body at h
    try dsimp only at h
    repeat' split at h
    all_goals first
      | (injection h with h; subst h; rfl)
      | (injection h)
  | error e => rfl

/-- The check_metadata_completeness result always carries its rule name. -/
theorem check_metadata_completeness_name (md : Option Md) :
    (check_metadata_completeness md).rule_name = "metadata_completeness" := by
  unfold check_metadata_completeness
  cases h : metadata_completeness_body md with
  | ok r =>
    unfold metadata_completeness_body at h
    try dsimp only at h
    repeat' split at h
    all_goals first
      | (injection h with h; subst h; rfl)
      | (injection h)
      | (exact mc_result_name _ _ _ h)
  | error e => rfl

/-- The check_record_availability result always carries its rule name. -/
theorem check_record_availability_name (c : Option Int) :
    (check_record_availability c).rule_name = "record_availability" := by
  unfold check_record_availability
  cases h : record_availability_body c with
  | ok r =>
    unfold record_availability_body at h
    try dsimp only at h
    repeat' split at h
    all_goals first
      | (injection h with h; subst h; rfl)
      | (injection h)
  | error e => rfl

/-- The pagination_page_result value always carries its rule name. -/
theorem pagination_page_result_name (pf : Except String PyVal) :
    (pagination_page_result pf).rule_name = "pagination_support" := by
  unfold pagination_page_result
  cases h : pagination_inner_body pf with
  | ok r =>
    unfold pagination_inner_body at h
    repeat' split at h
    all_goals first
      | (injection h with h; subst h; rfl)
      | (injection h)
  | error e => rfl

/-- The check_pagination_support result always carries its rule name. -/
theorem check_pagination_support_name (md : Option Md) (c : Option Int)
    (pf : Except String PyVal) :
    (check_pagination_support md c pf).rule_name = "pagination_support" := by
  unfold check_pagination_support
  cases h : pagination_body md c pf with
  | ok r =>
    unfold pagination_body at h
    try dsimp only at h
    repeat' split at h
    all_goals try (injection h with h; subst h; rfl)
    all_goals try (injection h)
    all_goals rename_i aeq
    all_goals subst aeq
    all_goals show (pagination_page_result pf).rule_name = "pagination_support"
    all_goals exact pagination_page_result_name pf
  | error e => rfl

/-- The check_schema_sanity result always carries its rule name. -/
theorem check_schema_sanity_name (pd : PandasOps)
    (fs : Option (List PyVal)) :
    (check_schema_sanity pd fs).rule_name = "schema_sanity" := by
  unfold check_schema_sanity
  cases h : schema_body pd fs with
  | ok r =>
    unfold schema_body schema_na_result at h
    try dsimp only at h
    repeat' split at h
    all_goals first
      | (injection h with h; subst h; rfl)
      | (injection h)
  | error e => rfl

/-- The check_geometry_sanity result always carries its rule name. -/
theorem check_geometry_sanity_name (sh : ShapelyOps)
    (fs : Option (List PyVal)) (config : LayerConfig) :
    (check_geometry_sanity sh fs config).rule_name = "geometry_sanity" := by
  unfold check_geometry_sanity
  cases h : geometry_body sh fs config with
  | ok r =>
    unfold geometry_body geometry_na_result at h
    try dsimp only at h
    repeat' split at h
    all_goals first
      | (injection h with h; subst h; rfl)
      | (injection h)
      | (exact geom_result_name _ _ _ _ _ h)
  | error e => rfl

/-- The check_update_recency result always carries its rule name. -/
theorem check_update_recency_name (dt : DatetimeOps) (md : Option Md)
    (th : Int) :
    (check_update_recency dt md th).rule_name = "update_recency" := by
  unfold check_update_recency
  cases h : update_recency_body dt th md with
  | ok r =>
    unfold update_recency_body at h
    try dsimp only at h
    repeat' split at h
    all_goals first
      | (injection h with h; subst h; rfl)
      | (injection h)
  | error e => rfl

/-- The check_spatial_reference result always carries its rule name. -/
theorem check_spatial_reference_name (md : Option Md) :
    (check_spatial_reference md).rule_name = "spatial_reference" := by
  unfold check_spatial_reference
  cases h : spatial_reference_body md with
  | ok r =>
    unfold spatial_reference_body at h
    try dsimp only at h
    repeat' split at h
    all_goals first
      | (injection h with h; subst h; rfl)
      | (injection h)
      | (exact sr_result_name _ _ _ _ h)
  | error e => rfl

/-- C2 (amended): absent metadata short-circuits to an unreachable FAIL
result whose rule list holds exactly the reachability rule as FAIL;
when metadata is present and the orchestrator metadata-field
extraction does not raise, all nine rules are evaluated in the fixed
order and the list has exactly nine entries (when the extraction raises
on malformed metadata, the orchestration fault is caught, recorded, and
the rule list stays shorter - see the counterexample). -/
theorem run_qa_rule_sequence_spec (config : LayerConfig) (client : ClientOps)
    (pandas : PandasOps) (sh : ShapelyOps) (dt : DatetimeOps) :
    (client.fetchMetadata = Option.none →
      (run_qa_for_layer config client pandas sh dt).rule_results =
        [check_reachability Option.none] ∧
      (run_qa_for_layer config client pandas sh dt).reachable = false ∧
      (run_qa_for_layer config client pandas sh dt).overall_status =
        QAStatus.FAIL ∧
      (check_reachability Option.none).status = QAStatus.FAIL ∧
      (check_reachability Option.none).rule_name = "reachability") ∧
    (∀ m, client.fetchMetadata = some m →
      ∀ g w, extract_geometry_type m = Except.ok g →
        extract_wkid m = Except.ok w →
      (run_qa_for_layer config client pandas sh dt).rule_results.map
          RuleResult.rule_name =
        ["reachability", "queryability", "metadata_completeness",
         "record_availability", "pagination_support", "schema_sanity",
         "geometry_sanity", "update_recency", "spatial_reference"] ∧
      (run_qa_for_layer config client pandas sh dt).rule_results.length = 9 ∧
      (run_qa_for_layer config client pandas sh dt).reachable = true) := by
  constructor
  · intro h
    unfold run_qa_for_layer
    rw [h]
    exact ⟨rfl, rfl, rfl, rfl, rfl⟩
  · intro m hm g w hg hw
    simp only [run_qa_for_layer, hm, hg, hw]
    refine ⟨?_, ?_, ?_⟩
    case refine_2 => first | rfl | trivial | simp
    case refine_3 => first | rfl | trivial | simp
    rw [List.map_cons, List.map_cons, List.map_cons, List.map_cons,
      List.map_cons, List.map_cons, List.map_cons, List.map_cons,
      List.map_cons, List.map_nil]
    rw [check_reachability_name, check_queryability_name,
      check_metadata_completeness_name, check_record_availability_name,
      check_pagination_support_name, check_schema_sanity_name,
      check_geometry_sanity_name, check_update_recency_name,
      check_spatial_reference_name]

/-- C2 counterexample: metadata is present but stores the integer 5
under geometryType, so the orchestrator field copy raises before any
rule runs; the fault is caught at the orchestrator boundary and the
returned result has an empty rule list (0 entries, not 9) with overall
status FAIL - refuting "whenever metadata is present, all nine rules
are evaluated and the list has exactly nine entries". -/
theorem run_qa_malformed_metadata_cex :
    (run_qa_for_layer cfgPoint cexClient oraclePandas oracleShapely
      oracleDt).rule_results.length = 0 ∧
    cexClient.fetchMetadata ≠ Option.none ∧
    (run_qa_for_layer cfgPoint cexClient oraclePandas oracleShapely
      oracleDt).reachable = true ∧
    (run_qa_for_layer cfgPoint cexClient oraclePandas oracleShapely
      oracleDt).overall_status = QAStatus.FAIL ∧
    (run_qa_for_layer cfgPoint cexClient oraclePandas oracleShapely
      oracleDt).errors =
      ["Unexpected error: AttributeError: object has no attribute replace"] := by
  refine ⟨rfl, ?_, rfl, rfl, rfl⟩
  simp [cexClient]

/-- Concrete instantiation of `run_qa_rule_sequence_spec`: with benign
metadata all nine rules appear, in the fixed order. -/
theorem run_qa_rule_sequence_spec_witness :
    (run_qa_for_layer cfgPoint goodClient oraclePandas oracleShapely
      oracleDt).rule_results.map RuleResult.rule_name =
      ["reachability", "queryability", "metadata_completeness",
       "record_availability", "pagination_support", "schema_sanity",
       "geometry_sanity", "update_recency", "spatial_reference"] :=
  ((run_qa_rule_sequence_spec cfgPoint goodClient oraclePandas oracleShapely
    oracleDt).2 [("name", PyVal.str "t")] rfl "" PyVal.none (by rfl)
    (by rfl)).1

end GeoQA

